import Mathlib

/-!
Shallow embedding of the REST statement-execution adapter
(`src/lib/rest/RestDriver.ts` of `databricks-sql-nodejs`): the driver's
mutable fields (`session`, `currentStatement`, `currentResultChunk`) become an
explicit `DriverState`, the injected `RestClient` becomes a record of pure
response functions, each async method becomes a function from state and client
to a new state, an `Except`-valued response (a `.error` models a thrown JS
exception), and the list of remote calls the method issued.
-/

/-- Remote statement states (string enum `StatementState` from
`src/lib/rest/Types.ts`, whose declaration is not part of the provided
sources; the constructor names are exactly the ones matched by the switches in
`RestDriver.ts`, and `other` stands for any unrecognized string coming from
the remote JSON, which hits the switches' `default` branch). -/
inductive StatementState where
  | Canceled
  | Closed
  | Failed
  | Pending
  | Running
  | Succeeded
  | other (s : String)
deriving DecidableEq

/-- Thrift operation states used by the driver (from the generated
`TCLIService_types`); the misspelled `UKNOWN_STATE` is the source's own name. -/
inductive TOperationState where
  | INITIALIZED_STATE
  | RUNNING_STATE
  | FINISHED_STATE
  | CANCELED_STATE
  | CLOSED_STATE
  | ERROR_STATE
  | UKNOWN_STATE
  | PENDING_STATE
  | TIMEDOUT_STATE
deriving DecidableEq

/-- REST column semantic type names (string enum `ColumnInfoTypeName` from
`src/lib/rest/Types.ts`, not under the provided sources; constructor names are
the ones matched in `restTypeNameToThriftTypeId`, with `other` for any
unrecognized remote string hitting the `default` branch). -/
inductive ColumnInfoTypeName where
  | Array
  | Binary
  | Boolean
  | Byte
  | Char
  | Date
  | Decimal
  | Double
  | Float
  | Int
  | Interval
  | Long
  | Map
  | Null
  | Short
  | String
  | Struct
  | Timestamp
  | UserDefinedType
  | other (s : String)
deriving DecidableEq

/-- Thrift type ids used by the driver (from the generated `TCLIService_types`). -/
inductive TTypeId where
  | BOOLEAN_TYPE
  | TINYINT_TYPE
  | SMALLINT_TYPE
  | INT_TYPE
  | BIGINT_TYPE
  | FLOAT_TYPE
  | DOUBLE_TYPE
  | STRING_TYPE
  | TIMESTAMP_TYPE
  | BINARY_TYPE
  | ARRAY_TYPE
  | MAP_TYPE
  | STRUCT_TYPE
  | UNION_TYPE
  | USER_DEFINED_TYPE
  | DECIMAL_TYPE
  | NULL_TYPE
  | DATE_TYPE
  | VARCHAR_TYPE
  | CHAR_TYPE
  | INTERVAL_YEAR_MONTH_TYPE
  | INTERVAL_DAY_TIME_TYPE
deriving DecidableEq

/-- Thrift status codes used by the driver. -/
inductive TStatusCode where
  | SUCCESS_STATUS
  | SUCCESS_WITH_INFO_STATUS
  | STILL_EXECUTING_STATUS
  | ERROR_STATUS
  | INVALID_HANDLE_STATUS
deriving DecidableEq

/-- `restOperationStateToThriftOperationState` (RestDriver.ts lines 80-97). -/
def restOperationStateToThriftOperationState (state : StatementState) : TOperationState :=
  match state with
  | .Canceled => .CANCELED_STATE
  | .Closed => .CLOSED_STATE
  | .Failed => .ERROR_STATE
  | .Pending => .PENDING_STATE
  | .Running => .RUNNING_STATE
  | .Succeeded => .FINISHED_STATE
  | .other _ => .UKNOWN_STATE

/-- `restTypeNameToThriftTypeId` (RestDriver.ts lines 99-142). -/
def restTypeNameToThriftTypeId (typeName : ColumnInfoTypeName) : TTypeId :=
  match typeName with
  | .Array => .ARRAY_TYPE
  | .Binary => .BINARY_TYPE
  | .Boolean => .BOOLEAN_TYPE
  | .Byte => .TINYINT_TYPE
  | .Char => .CHAR_TYPE
  | .Date => .DATE_TYPE
  | .Decimal => .DECIMAL_TYPE
  | .Double => .DOUBLE_TYPE
  | .Float => .FLOAT_TYPE
  | .Int => .INT_TYPE
  | .Interval => .INTERVAL_DAY_TIME_TYPE
  | .Long => .INT_TYPE
  | .Map => .MAP_TYPE
  | .Null => .NULL_TYPE
  | .Short => .SMALLINT_TYPE
  | .String => .STRING_TYPE
  | .Struct => .STRUCT_TYPE
  | .Timestamp => .TIMESTAMP_TYPE
  | .UserDefinedType => .USER_DEFINED_TYPE
  | .other _ => .NULL_TYPE

/-- Remote error payload carried by a statement status
(`status.error.error_code`, `status.error.message` in RestDriver.ts). -/
structure StatementError where
  error_code : String
  message : String
deriving DecidableEq

/-- REST statement status: a state plus an optional error payload (the driver
reads `status.error?.error_code` at line 373, so the field is optional). -/
structure StatementStatus where
  state : StatementState
  error : Option StatementError := none
deriving DecidableEq

/-- One column of a REST result manifest: name, zero-based position, semantic
type name. -/
structure ColumnInfo where
  name : String
  position : Nat
  type_name : ColumnInfoTypeName
deriving DecidableEq

/-- REST result schema (`ResultSchema`): column count and ordered columns. -/
structure ResultSchema where
  column_count : Nat
  columns : List ColumnInfo
deriving DecidableEq

/-- REST result manifest, carrying the result schema. -/
structure ResultManifest where
  schema : ResultSchema
deriving DecidableEq

/-- One REST result chunk (`ResultData`): row-major rows of string cells, this
chunk's index, and the optional next chunk index (absent at end of data). -/
structure ResultData where
  data_array : Option (List (List String)) := none
  chunk_index : Option Nat := none
  next_chunk_index : Option Nat := none
deriving DecidableEq

/-- REST execute-statement response (`ExecuteStatementResponse`): statement id,
status, optional manifest and optional first result chunk. -/
structure ExecuteStatementResponse where
  statement_id : String
  status : StatementStatus
  manifest : Option ResultManifest := none
  result : Option ResultData := none
deriving DecidableEq

/-- REST get-statement response: status, optional manifest, optional result. -/
structure GetStatementResponse where
  status : StatementStatus
  manifest : Option ResultManifest := none
  result : Option ResultData := none
deriving DecidableEq

/-- Fixed execution options passed by `executeStatement` (Disposition.Inline,
Format.JsonArray, TimeoutAction.Continue in `src/lib/rest/Types.ts`). -/
inductive Disposition where
  | Inline
deriving DecidableEq

inductive Format where
  | JsonArray
deriving DecidableEq

inductive TimeoutAction where
  | Continue
deriving DecidableEq

/-- Argument record of the REST client's `executeStatement` call, as assembled
by `RestDriver.executeStatement` (lines 214-223). -/
structure ExecuteStatementArgs where
  catalog : Option String
  schema : Option String
  disposition : Disposition
  format : Format
  on_wait_timeout : TimeoutAction
  wait_timeout : String
  warehouse_id : String
  statement : String
deriving DecidableEq

/-- The opaque REST collaborator: pure response functions standing for the
HTTP client the driver is constructed with. -/
structure RestClient where
  warehouse_id : String
  executeStatementR : ExecuteStatementArgs → ExecuteStatementResponse
  getStatementR : String → GetStatementResponse
  getStatementResultChunkNR : String → Option Nat → Option ResultData

/-- The remote calls a driver method can issue, recorded for the polling and
chunk-paging claims. -/
inductive RemoteCall where
  | execCall (args : ExecuteStatementArgs)
  | getStatementCall (statement_id : String)
  | chunkCall (statement_id : String) (chunk_index : Option Nat)
  | cancelCall (statement_id : String)
deriving DecidableEq

/-- Session namespace of `TOpenSessionReq.initialNamespace`. -/
structure TNamespace where
  catalogName : Option String := none
  schemaName : Option String := none
deriving DecidableEq

/-- The RPC open-session request fields the driver reads.  `client_protocol`
is the numeric value of the optional `TProtocolVersion` thrift enum member;
the generated enum (imported from `TCLIService_types`, not under the provided
sources) numbers `HIVE_CLI_SERVICE_PROTOCOL_V1` as `0`. -/
structure TOpenSessionReq where
  client_protocol : Option Nat := none
  initialNamespace : Option TNamespace := none
deriving DecidableEq

/-- Numeric value of `TProtocolVersion.SPARK_CLI_SERVICE_PROTOCOL_V6`, the
driver's default protocol version; only its nonzero-ness matters here. -/
def SPARK_CLI_SERVICE_PROTOCOL_V6 : Nat := 42246

/-- The RPC execute-statement request field the driver reads. -/
structure TExecuteStatementReq where
  statement : String
deriving DecidableEq

/-- Thrift response status. -/
structure TStatus where
  statusCode : TStatusCode
  errorMessage : Option String := none
deriving DecidableEq

/-- The fields of the synthesized operation handle that are not constant. -/
structure TOperationHandle where
  hasResultSet : Bool
deriving DecidableEq

structure TOpenSessionResp where
  status : TStatus
  serverProtocolVersion : Nat
deriving DecidableEq

structure TCloseSessionResp where
  status : TStatus
deriving DecidableEq

structure TExecuteStatementResp where
  status : TStatus
  operationHandle : Option TOperationHandle := none
deriving DecidableEq

/-- One thrift column of a row set; the driver only ever fills `stringVal`
value lists (`nulls` is a constant empty buffer and is omitted). -/
structure TColumn where
  stringVal : List String
deriving DecidableEq

/-- Thrift row set built by `restJsonResultToThriftColumnar`. -/
structure TRowSet where
  startRowOffset : Nat
  rows : List Unit
  columns : List TColumn
  columnCount : Nat
deriving DecidableEq

structure TFetchResultsResp where
  status : TStatus
  hasMoreRows : Option Bool := none
  results : Option TRowSet := none
deriving DecidableEq

structure TPrimitiveTypeEntry where
  type : TTypeId
deriving DecidableEq

structure TTypeEntry where
  primitiveEntry : TPrimitiveTypeEntry
deriving DecidableEq

structure TTypeDesc where
  types : List TTypeEntry
deriving DecidableEq

/-- Thrift column descriptor produced by `getResultSetMetadata`. -/
structure TColumnDesc where
  columnName : String
  position : Nat
  typeDesc : TTypeDesc
deriving DecidableEq

structure TTableSchema where
  columns : List TColumnDesc
deriving DecidableEq

inductive TSparkRowSetType where
  | ARROW_BASED_SET
  | COLUMN_BASED_SET
  | ROW_BASED_SET
  | URL_BASED_SET
deriving DecidableEq

structure TGetResultSetMetadataResp where
  status : TStatus
  resultFormat : Option TSparkRowSetType := none
  schema : Option TTableSchema := none
deriving DecidableEq

structure TGetOperationStatusResp where
  status : TStatus
  operationState : Option TOperationState := none
  errorCode : Option Nat := none
  errorMessage : Option String := none
  hasResultSet : Option Bool := none
deriving DecidableEq

structure TCancelOperationResp where
  status : TStatus
deriving DecidableEq

structure TCloseOperationResp where
  status : TStatus
deriving DecidableEq

/-- One iteration of the row loop in `restJsonResultToThriftColumnar`
(RestDriver.ts lines 150-154): push cell `i` of the row onto accumulator
column `i` for every `i < row.length`.  In JS, `columns[i]` is `undefined`
once the row is longer than the accumulator list, and the member access on it
throws a `TypeError`; that throw is the `.error` case. -/
def appendRowToCols : List (List String) → List String → Except String (List (List String))
  | cols, [] => .ok cols
  | [], _ :: _ => .error "TypeError: Cannot read properties of undefined"
  | c :: cs, x :: xs => (appendRowToCols cs xs).map (fun rest => (c ++ [x]) :: rest)

/-- `restJsonResultToThriftColumnar` (RestDriver.ts lines 144-163): one empty
string-column accumulator per schema column, then each row's cells are pushed
into the accumulators in column order.  A thrown `TypeError` (row longer than
the accumulator list) is the `.error` case. -/
def restJsonResultToThriftColumnar (schema : ResultSchema) (result : ResultData) :
    Except String TRowSet :=
  let cols0 : List (List String) := schema.columns.map (fun _ => [])
  let folded : Except String (List (List String)) :=
    match result.data_array with
    | none => .ok cols0
    | some rows => rows.foldlM appendRowToCols cols0
  folded.map (fun cols =>
    { startRowOffset := 0
      rows := []
      columns := cols.map (fun vs => { stringVal := vs })
      columnCount := cols.length })

/-- The driver's mutable instance fields (RestDriver.ts lines 169-173). -/
structure DriverState where
  session : Option TOpenSessionReq := none
  currentStatement : Option ExecuteStatementResponse := none
  currentResultChunk : Option ResultData := none
deriving DecidableEq

instance {ε α : Type} [DecidableEq ε] [DecidableEq α] : DecidableEq (Except ε α) := fun x y =>
  match x, y with
  | .ok a, .ok b => decidable_of_iff (a = b) (by simp)
  | .ok _, .error _ => isFalse (by simp)
  | .error _, .ok _ => isFalse (by simp)
  | .error e, .error f => decidable_of_iff (e = f) (by simp)

/-- Result of running one driver method: the updated state, the returned
response (`.error e` models the method's promise rejecting with a thrown
exception of message `e`), and the remote calls issued. -/
structure StepResult (α : Type) where
  state : DriverState
  resp : Except String α
  calls : List RemoteCall
deriving DecidableEq

/-- `RestDriver.processStatementStatus` (RestDriver.ts lines 179-190), with
the mutated `this.currentStatement` passed and returned explicitly: Canceled
and Closed clear it, Failed throws (`.error`, leaving the field to the
caller's value), everything else returns with no change. -/
def processStatementStatus (cur : Option ExecuteStatementResponse)
    (status : StatementStatus) : Except String (Option ExecuteStatementResponse) :=
  match status.state with
  | .Canceled => .ok none
  | .Closed => .ok none
  | .Failed =>
    match status.error with
    | some e => .error (e.error_code ++ ": " ++ e.message)
    | none => .error "TypeError: Cannot read properties of undefined"
  | _ => .ok cur

/-- JS `a || b` for an optional number: `undefined` and `0` are falsy. -/
def jsOrNat : Option Nat → Nat → Nat
  | none, d => d
  | some v, d => if v = 0 then d else v

/-- `RestDriver.openSession` (RestDriver.ts lines 192-204). -/
def RestDriver.openSession (s : DriverState) (request : TOpenSessionReq) :
    StepResult TOpenSessionResp :=
  { state := { s with session := some request }
    resp := .ok
      { status := { statusCode := .SUCCESS_STATUS }
        serverProtocolVersion := jsOrNat request.client_protocol SPARK_CLI_SERVICE_PROTOCOL_V6 }
    calls := [] }

/-- `RestDriver.closeSession` (RestDriver.ts lines 206-211). -/
def RestDriver.closeSession (s : DriverState) : StepResult TCloseSessionResp :=
  { state := { s with session := none }
    resp := .ok { status := { statusCode := .SUCCESS_STATUS } }
    calls := [] }

/-- `RestDriver.executeStatement` (RestDriver.ts lines 213-244). -/
def RestDriver.executeStatement (s : DriverState) (client : RestClient)
    (request : TExecuteStatementReq) : StepResult TExecuteStatementResp :=
  let args : ExecuteStatementArgs :=
    { catalog := s.session.bind (fun ss => ss.initialNamespace.bind (fun ns => ns.catalogName))
      schema := s.session.bind (fun ss => ss.initialNamespace.bind (fun ns => ns.schemaName))
      disposition := .Inline
      format := .JsonArray
      on_wait_timeout := .Continue
      wait_timeout := "5s"
      warehouse_id := client.warehouse_id
      statement := request.statement }
  let response := client.executeStatementR args
  let s1 : DriverState := { s with currentStatement := some response }
  let calls := [RemoteCall.execCall args]
  match processStatementStatus s1.currentStatement response.status with
  | .error e => { state := s1, resp := .error e, calls := calls }
  | .ok cur =>
    let s2 : DriverState := { s1 with currentStatement := cur }
    match s2.currentStatement with
    | none =>
      { state := s2
        resp := .ok { status := { statusCode := .INVALID_HANDLE_STATUS } }
        calls := calls }
    | some st =>
      { state := s2
        resp := .ok
          { status := { statusCode := .SUCCESS_STATUS }
            operationHandle := some
              { hasResultSet := (st.result.bind (fun r => r.chunk_index)).isSome } }
        calls := calls }

/-- `RestDriver.getResultSetMetadata` (RestDriver.ts lines 246-275). -/
def RestDriver.getResultSetMetadata (s : DriverState) :
    StepResult TGetResultSetMetadataResp :=
  match s.currentStatement with
  | none =>
    { state := s
      resp := .ok
        { status := { statusCode := .ERROR_STATUS, errorMessage := some "Invalid handle" } }
      calls := [] }
  | some st =>
    let columns : List TColumnDesc :=
      match st.manifest with
      | none => []
      | some m =>
        m.schema.columns.map (fun column =>
          { columnName := column.name
            position := column.position + 1
            typeDesc :=
              { types := [{ primitiveEntry := { type := restTypeNameToThriftTypeId column.type_name } }] } })
    { state := s
      resp := .ok
        { status := { statusCode := .SUCCESS_STATUS }
          resultFormat := some .COLUMN_BASED_SET
          schema := some { columns := columns } }
      calls := [] }

/-- The chunk `fetchResults` settles on, with the remote calls that took
(RestDriver.ts lines 284-291): the statement's attached result pointer when no
chunk was consumed yet, otherwise the remotely fetched chunk at the previous
chunk's next index. -/
def resolvedChunk (s : DriverState) (client : RestClient)
    (st : ExecuteStatementResponse) : Option ResultData × List RemoteCall :=
  match s.currentResultChunk with
  | none => (st.result, [])
  | some c =>
    (client.getStatementResultChunkNR st.statement_id c.next_chunk_index,
      [RemoteCall.chunkCall st.statement_id c.next_chunk_index])

/-- `RestDriver.fetchResults` (RestDriver.ts lines 277-309). -/
def RestDriver.fetchResults (s : DriverState) (client : RestClient) :
    StepResult TFetchResultsResp :=
  match s.currentStatement with
  | none =>
    { state := s
      resp := .ok
        { status := { statusCode := .ERROR_STATUS, errorMessage := some "Invalid handle" } }
      calls := [] }
  | some st =>
    let rc := resolvedChunk s client st
    let s1 : DriverState := { s with currentResultChunk := rc.1 }
    match rc.1 with
    | none =>
      { state := s1
        resp := .ok
          { status := { statusCode := .ERROR_STATUS, errorMessage := some "No more data" } }
        calls := rc.2 }
    | some chunk =>
      let schema : ResultSchema :=
        (st.manifest.map (fun m => m.schema)).getD { column_count := 0, columns := [] }
      match restJsonResultToThriftColumnar schema chunk with
      | .error e => { state := s1, resp := .error e, calls := rc.2 }
      | .ok rowset =>
        { state := s1
          resp := .ok
            { status := { statusCode := .SUCCESS_STATUS }
              hasMoreRows := some chunk.next_chunk_index.isSome
              results := some rowset }
          calls := rc.2 }

/-- `RestDriver.getOperationStatus` (RestDriver.ts lines 351-376). -/
def RestDriver.getOperationStatus (s : DriverState) (client : RestClient) :
    StepResult TGetOperationStatusResp :=
  let polled : DriverState × List RemoteCall × Option String :=
    match s.currentStatement with
    | some st =>
      match st.manifest with
      | none =>
        let response := client.getStatementR st.statement_id
        let st1 : ExecuteStatementResponse :=
          { st with status := response.status
                    manifest := response.manifest
                    result := response.result }
        let calls := [RemoteCall.getStatementCall st.statement_id]
        match processStatementStatus (some st1) st1.status with
        | .ok cur => ({ s with currentStatement := cur }, calls, none)
        | .error e => ({ s with currentStatement := some st1 }, calls, some e)
      | some _ => (s, [], none)
    | none => (s, [], none)
  match polled with
  | (s1, calls, some e) => { state := s1, resp := .error e, calls := calls }
  | (s1, calls, none) =>
    match s1.currentStatement with
    | none =>
      { state := s1
        resp := .ok
          { status := { statusCode := .ERROR_STATUS, errorMessage := some "Invalid handle" } }
        calls := calls }
    | some st =>
      { state := s1
        resp := .ok
          { status := { statusCode := .SUCCESS_STATUS }
            operationState := some (restOperationStateToThriftOperationState st.status.state)
            errorCode := some 0
            errorMessage := some
              ((match st.status.error with
                | some e => e.error_code
                | none => "undefined") ++ ": " ++
               (match st.status.error with
                | some e => e.message
                | none => "undefined"))
            hasResultSet := some st.result.isSome }
        calls := calls }

/-- `RestDriver.cancelOperation` (RestDriver.ts lines 378-388). -/
def RestDriver.cancelOperation (s : DriverState) : StepResult TCancelOperationResp :=
  match s.currentStatement with
  | some st =>
    { state := { s with currentStatement := none }
      resp := .ok { status := { statusCode := .SUCCESS_STATUS } }
      calls := [RemoteCall.cancelCall st.statement_id] }
  | none =>
    { state := s
      resp := .ok { status := { statusCode := .SUCCESS_STATUS } }
      calls := [] }

/-- `RestDriver.closeOperation` (RestDriver.ts lines 390-395). -/
def RestDriver.closeOperation (s : DriverState) : StepResult TCloseOperationResp :=
  { state := { s with currentStatement := none }
    resp := .ok { status := { statusCode := .SUCCESS_STATUS } }
    calls := [] }

/-- Pure specification of one row-push step: append each cell of the row to
its accumulator column, leaving trailing columns untouched.  `appendRowToCols`
agrees with it whenever the row is no longer than the accumulator list. -/
def zipAppendSpec : List (List String) → List String → List (List String)
  | cols, [] => cols
  | [], _ :: _ => []
  | c :: cs, x :: xs => (c ++ [x]) :: zipAppendSpec cs xs

theorem appendRowToCols_eq_ok :
    ∀ (cols : List (List String)) (row : List String), row.length ≤ cols.length →
      appendRowToCols cols row = .ok (zipAppendSpec cols row)
  | cols, [], _ => by cases cols <;> rfl
  | [], x :: xs, h => by simp at h
  | c :: cs, x :: xs, h => by
    have ih := appendRowToCols_eq_ok cs xs (by simpa using h)
    simp [appendRowToCols, zipAppendSpec, ih, Except.map]

theorem zipAppendSpec_length :
    ∀ (cols : List (List String)) (row : List String),
      (zipAppendSpec cols row).length = cols.length
  | cols, [] => by cases cols <;> rfl
  | [], _ :: _ => rfl
  | c :: cs, x :: xs => by simp [zipAppendSpec, zipAppendSpec_length cs xs]

theorem zipAppendSpec_getD :
    ∀ (cols : List (List String)) (row : List String) (j : Nat),
      j < cols.length → row.length = cols.length →
      (zipAppendSpec cols row).getD j [] = cols.getD j [] ++ [row.getD j ""]
  | [], _, j, hj, _ => by simp at hj
  | c :: cs, [], j, hj, hr => by simp at hr
  | c :: cs, x :: xs, 0, hj, hr => rfl
  | c :: cs, x :: xs, j + 1, hj, hr => by
    have ih := zipAppendSpec_getD cs xs j (by simpa using hj) (by simpa using hr)
    simpa [zipAppendSpec] using ih

theorem foldlM_appendRowToCols_eq_ok (rows : List (List String)) :
    ∀ (cols : List (List String)), (∀ r ∈ rows, r.length ≤ cols.length) →
      rows.foldlM appendRowToCols cols = .ok (rows.foldl zipAppendSpec cols) := by
  induction rows with
  | nil => intro cols _; rfl
  | cons r rs ih =>
    intro cols h
    have h1 : r.length ≤ cols.length := h r (by simp)
    have h2 : ∀ q ∈ rs, q.length ≤ (zipAppendSpec cols r).length := by
      intro q hq
      rw [zipAppendSpec_length]
      exact h q (by simp [hq])
    simp only [List.foldlM_cons, appendRowToCols_eq_ok cols r h1]
    simpa [List.foldl_cons] using ih (zipAppendSpec cols r) h2

theorem foldl_zipAppendSpec_length (rows : List (List String)) :
    ∀ cols : List (List String), (rows.foldl zipAppendSpec cols).length = cols.length := by
  induction rows with
  | nil => intro cols; rfl
  | cons r rs ih =>
    intro cols
    simp [List.foldl_cons, ih (zipAppendSpec cols r), zipAppendSpec_length]

theorem foldl_zipAppendSpec_getD (rows : List (List String)) :
    ∀ (cols : List (List String)) (j : Nat), j < cols.length →
      (∀ r ∈ rows, r.length = cols.length) →
      (rows.foldl zipAppendSpec cols).getD j [] =
        cols.getD j [] ++ rows.map (fun r => r.getD j "") := by
  induction rows with
  | nil => intro cols j hj _; simp
  | cons r rs ih =>
    intro cols j hj h
    have hr : r.length = cols.length := h r (by simp)
    have hj' : j < (zipAppendSpec cols r).length := by rw [zipAppendSpec_length]; exact hj
    have h' : ∀ q ∈ rs, q.length = (zipAppendSpec cols r).length := by
      intro q hq
      rw [zipAppendSpec_length]
      exact h q (by simp [hq])
    calc ((r :: rs).foldl zipAppendSpec cols).getD j []
        = (rs.foldl zipAppendSpec (zipAppendSpec cols r)).getD j [] := by
          simp [List.foldl_cons]
      _ = (zipAppendSpec cols r).getD j [] ++ rs.map (fun q => q.getD j "") :=
          ih (zipAppendSpec cols r) j hj' h'
      _ = (cols.getD j [] ++ [r.getD j ""]) ++ rs.map (fun q => q.getD j "") := by
          rw [zipAppendSpec_getD cols r j hj hr]
      _ = cols.getD j [] ++ ((r :: rs).map (fun q => q.getD j "")) := by
          simp

theorem getD_map_of_lt {α β : Type} (f : α → β) :
    ∀ (l : List α) (j : Nat), j < l.length → ∀ (d : α) (e : β),
      (l.map f).getD j e = f (l.getD j d)
  | [], j, hj, _, _ => by simp at hj
  | a :: t, 0, _, _, _ => rfl
  | a :: t, j + 1, hj, d, e => by
    simpa using getD_map_of_lt f t j (by simpa using hj) d e

theorem getD_map_const_nil (l : List ColumnInfo) (j : Nat) :
    (l.map (fun _ => ([] : List String))).getD j [] = [] := by
  induction l generalizing j with
  | nil => simp
  | cons a t ih => cases j <;> simp [ih]

/-- C5: the state-mapping function is total over all remote statement states
and maps Canceled to CANCELED, Closed to CLOSED, Failed to ERROR, Pending to
PENDING, Running to RUNNING, Succeeded to FINISHED, and any unrecognized state
to the unknown state, never raising an error. -/
theorem c5_state_mapping_total :
    restOperationStateToThriftOperationState .Canceled = .CANCELED_STATE ∧
    restOperationStateToThriftOperationState .Closed = .CLOSED_STATE ∧
    restOperationStateToThriftOperationState .Failed = .ERROR_STATE ∧
    restOperationStateToThriftOperationState .Pending = .PENDING_STATE ∧
    restOperationStateToThriftOperationState .Running = .RUNNING_STATE ∧
    restOperationStateToThriftOperationState .Succeeded = .FINISHED_STATE ∧
    ∀ u : String, restOperationStateToThriftOperationState (.other u) = .UKNOWN_STATE :=
  ⟨rfl, rfl, rfl, rfl, rfl, rfl, fun _ => rfl⟩

/-- C6: the type-mapping function is total over all remote semantic type names
and returns the documented RPC type id for each, including the documented
lossy mappings byte→tinyint, long→int, short→smallint,
interval→interval-day-time; unrecognized names map to null-type. -/
theorem c6_type_mapping_total :
    restTypeNameToThriftTypeId .Array = .ARRAY_TYPE ∧
    restTypeNameToThriftTypeId .Binary = .BINARY_TYPE ∧
    restTypeNameToThriftTypeId .Boolean = .BOOLEAN_TYPE ∧
    restTypeNameToThriftTypeId .Byte = .TINYINT_TYPE ∧
    restTypeNameToThriftTypeId .Char = .CHAR_TYPE ∧
    restTypeNameToThriftTypeId .Date = .DATE_TYPE ∧
    restTypeNameToThriftTypeId .Decimal = .DECIMAL_TYPE ∧
    restTypeNameToThriftTypeId .Double = .DOUBLE_TYPE ∧
    restTypeNameToThriftTypeId .Float = .FLOAT_TYPE ∧
    restTypeNameToThriftTypeId .Int = .INT_TYPE ∧
    restTypeNameToThriftTypeId .Interval = .INTERVAL_DAY_TIME_TYPE ∧
    restTypeNameToThriftTypeId .Long = .INT_TYPE ∧
    restTypeNameToThriftTypeId .Map = .MAP_TYPE ∧
    restTypeNameToThriftTypeId .Null = .NULL_TYPE ∧
    restTypeNameToThriftTypeId .Short = .SMALLINT_TYPE ∧
    restTypeNameToThriftTypeId .String = .STRING_TYPE ∧
    restTypeNameToThriftTypeId .Struct = .STRUCT_TYPE ∧
    restTypeNameToThriftTypeId .Timestamp = .TIMESTAMP_TYPE ∧
    restTypeNameToThriftTypeId .UserDefinedType = .USER_DEFINED_TYPE ∧
    ∀ u : String, restTypeNameToThriftTypeId (.other u) = .NULL_TYPE :=
  ⟨rfl, rfl, rfl, rfl, rfl, rfl, rfl, rfl, rfl, rfl, rfl, rfl, rfl, rfl, rfl, rfl,
    rfl, rfl, rfl, fun _ => rfl⟩

/-- C2: whenever a remote call returns a statement status, the shared
status-processing rule holds: Canceled or Closed clears the tracked statement
and raises no error; Failed raises an error whose content includes both the
remote error code and the remote error message while leaving the tracked
statement in place; any other state leaves adapter state unchanged. -/
theorem c2_status_processing_rule :
    (∀ (cur : Option ExecuteStatementResponse) (status : StatementStatus),
      (status.state = .Canceled ∨ status.state = .Closed) →
        processStatementStatus cur status = .ok none) ∧
    (∀ (cur : Option ExecuteStatementResponse) (status : StatementStatus) (e : StatementError),
      status.state = .Failed → status.error = some e →
        processStatementStatus cur status = .error (e.error_code ++ ": " ++ e.message)) ∧
    (∀ (cur : Option ExecuteStatementResponse) (status : StatementStatus),
      status.state ≠ .Canceled → status.state ≠ .Closed → status.state ≠ .Failed →
        processStatementStatus cur status = .ok cur) ∧
    (∀ (s : DriverState) (client : RestClient) (st : ExecuteStatementResponse)
      (e : StatementError),
      s.currentStatement = some st → st.manifest = none →
      (client.getStatementR st.statement_id).status.state = .Failed →
      (client.getStatementR st.statement_id).status.error = some e →
        (RestDriver.getOperationStatus s client).resp =
          .error (e.error_code ++ ": " ++ e.message) ∧
        ((RestDriver.getOperationStatus s client).state.currentStatement).isSome = true) ∧
    (∃ a b c d : String,
      "42" ++ ": " ++ "syntax error" = a ++ "42" ++ b ∧
      "42" ++ ": " ++ "syntax error" = c ++ "syntax error" ++ d) := by
  refine ⟨?_, ?_, ?_, ?_, "", ": syntax error", "42: ", "", by decide, by decide⟩
  · intro cur status h
    rcases h with h | h <;> simp [processStatementStatus, h]
  · intro cur status e h1 h2
    simp [processStatementStatus, h1, h2]
  · intro cur status h1 h2 h3
    cases hs : status.state <;> simp_all [processStatementStatus]
  · intro s client st e h1 h2 h3 h4
    constructor <;>
      simp [RestDriver.getOperationStatus, h1, h2, processStatementStatus, h3, h4]

/-- Closed witness for C2: processing a Failed status with error code `42` and
message `syntax error` raises exactly that error. -/
theorem c2_status_processing_rule_witness :
    processStatementStatus (some { statement_id := "s1", status := { state := .Running } })
      { state := .Failed, error := some { error_code := "42", message := "syntax error" } } =
      .error ("42" ++ ": " ++ "syntax error") :=
  c2_status_processing_rule.2.1 _ _ { error_code := "42", message := "syntax error" } rfl rfl

/-- C9 counterexample: an open request that explicitly asks for the protocol
version whose numeric value is 0 (`HIVE_CLI_SERVICE_PROTOCOL_V1`) gets the
configured default back, not the requested version, because the source uses
the JS `||` operator and `0` is falsy. -/
theorem c9_requested_zero_counterexample :
    (RestDriver.openSession {} { client_protocol := some 0 }).resp =
      .ok { status := { statusCode := .SUCCESS_STATUS },
            serverProtocolVersion := SPARK_CLI_SERVICE_PROTOCOL_V6 } ∧
    SPARK_CLI_SERVICE_PROTOCOL_V6 ≠ 0 := by
  exact ⟨rfl, by decide⟩

/-- C9 (amended): openSession always succeeds; the returned protocol version
equals the requested one when that version's numeric value is nonzero, and is
the configured default when the request does not specify one or specifies the
version with numeric value 0 (JS `||` treats 0 as unspecified). -/
theorem c9_openSession_protocol_version (s : DriverState) (request : TOpenSessionReq) :
    ∃ resp, (RestDriver.openSession s request).resp = .ok resp ∧
      resp.status.statusCode = .SUCCESS_STATUS ∧
      (request.client_protocol = none →
        resp.serverProtocolVersion = SPARK_CLI_SERVICE_PROTOCOL_V6) ∧
      (request.client_protocol = some 0 →
        resp.serverProtocolVersion = SPARK_CLI_SERVICE_PROTOCOL_V6) ∧
      (∀ v, request.client_protocol = some v → v ≠ 0 →
        resp.serverProtocolVersion = v) := by
  refine ⟨_, rfl, rfl, ?_, ?_, ?_⟩
  · intro h; simp [RestDriver.openSession, jsOrNat, h]
  · intro h; simp [RestDriver.openSession, jsOrNat, h]
  · intro v h hv; simp [RestDriver.openSession, jsOrNat, h, hv]

/-- Closed witness for C9's amended theorem at a request asking for version 5. -/
theorem c9_openSession_protocol_version_witness :
    ∃ resp, (RestDriver.openSession {} { client_protocol := some 5 }).resp = .ok resp ∧
      resp.serverProtocolVersion = 5 := by
  obtain ⟨resp, hok, _, _, _, h5⟩ :=
    c9_openSession_protocol_version {} { client_protocol := some 5 }
  exact ⟨resp, hok, h5 5 rfl (by decide)⟩

theorem getOperationStatus_calls_eq (s : DriverState) (client : RestClient) :
    (RestDriver.getOperationStatus s client).calls =
      match s.currentStatement with
      | some st =>
        match st.manifest with
        | none => [RemoteCall.getStatementCall st.statement_id]
        | some _ => []
      | none => [] := by
  cases h1 : s.currentStatement with
  | none => simp [RestDriver.getOperationStatus, h1]
  | some st =>
    cases h2 : st.manifest with
    | some m => simp [RestDriver.getOperationStatus, h1, h2]
    | none =>
      simp only [RestDriver.getOperationStatus, h1, h2]
      rcases hp : processStatementStatus
          (some { st with
            status := (client.getStatementR st.statement_id).status
            manifest := (client.getStatementR st.statement_id).manifest
            result := (client.getStatementR st.statement_id).result })
          (client.getStatementR st.statement_id).status with err | cur
      · simp [hp]
      · simp only [hp]
        cases cur <;> simp

theorem processStatementStatus_nonterminal (cur : Option ExecuteStatementResponse)
    (status : StatementStatus) (h1 : status.state ≠ .Canceled)
    (h2 : status.state ≠ .Closed) (h3 : status.state ≠ .Failed) :
    processStatementStatus cur status = .ok cur := by
  cases hs : status.state <;> simp_all [processStatementStatus]

theorem getOperationStatus_state_nonterminal (s : DriverState) (client : RestClient)
    (st : ExecuteStatementResponse)
    (h1 : s.currentStatement = some st) (h2 : st.manifest = none)
    (h3 : (client.getStatementR st.statement_id).status.state ≠ .Canceled)
    (h4 : (client.getStatementR st.statement_id).status.state ≠ .Closed)
    (h5 : (client.getStatementR st.statement_id).status.state ≠ .Failed) :
    (RestDriver.getOperationStatus s client).state.currentStatement =
      some { st with status := (client.getStatementR st.statement_id).status
                     manifest := (client.getStatementR st.statement_id).manifest
                     result := (client.getStatementR st.statement_id).result } := by
  have hp :
      processStatementStatus
        (some { st with status := (client.getStatementR st.statement_id).status
                        manifest := (client.getStatementR st.statement_id).manifest
                        result := (client.getStatementR st.statement_id).result })
        (client.getStatementR st.statement_id).status =
      .ok (some { st with status := (client.getStatementR st.statement_id).status
                          manifest := (client.getStatementR st.statement_id).manifest
                          result := (client.getStatementR st.statement_id).result }) :=
    processStatementStatus_nonterminal _ _ h3 h4 h5
  simp [RestDriver.getOperationStatus, h1, h2, hp]

/-- C3: getOperationStatus performs exactly one remote get-statement call if
and only if a statement is tracked and has no manifest yet; when the execute
response already carried a manifest, an immediately following
getOperationStatus performs no remote call, and while the tracked statement
remains without a manifest, each repeated getOperationStatus call performs one
more remote get-statement call. -/
theorem c3_getOperationStatus_polling (s : DriverState) (client : RestClient) :
    ((RestDriver.getOperationStatus s client).calls ≠ [] ↔
      ∃ st, s.currentStatement = some st ∧ st.manifest = none) ∧
    (∀ st, s.currentStatement = some st → st.manifest = none →
      (RestDriver.getOperationStatus s client).calls =
        [RemoteCall.getStatementCall st.statement_id]) ∧
    (∀ st m, s.currentStatement = some st → st.manifest = some m →
      (RestDriver.getOperationStatus s client).calls = []) ∧
    (s.currentStatement = none → (RestDriver.getOperationStatus s client).calls = []) ∧
    (∀ st, s.currentStatement = some st → st.manifest = none →
      (client.getStatementR st.statement_id).manifest = none →
      (client.getStatementR st.statement_id).status.state ≠ .Canceled →
      (client.getStatementR st.statement_id).status.state ≠ .Closed →
      (client.getStatementR st.statement_id).status.state ≠ .Failed →
      (RestDriver.getOperationStatus
          (RestDriver.getOperationStatus s client).state client).calls =
        [RemoteCall.getStatementCall st.statement_id]) := by
  refine ⟨?_, ?_, ?_, ?_, ?_⟩
  · rw [getOperationStatus_calls_eq]
    cases h : s.currentStatement with
    | none => simp
    | some st =>
      cases hm : st.manifest with
      | none => exact iff_of_true (by simp [hm]) ⟨st, rfl, hm⟩
      | some m =>
        refine iff_of_false (by simp [hm]) ?_
        rintro ⟨st', hst, hm'⟩
        rw [Option.some_inj] at hst
        rw [hst] at hm
        rw [hm'] at hm
        exact Option.noConfusion hm
  · intro st h1 h2
    rw [getOperationStatus_calls_eq]
    simp [h1, h2]
  · intro st m h1 h2
    rw [getOperationStatus_calls_eq]
    simp [h1, h2]
  · intro h
    rw [getOperationStatus_calls_eq]
    simp [h]
  · intro st h1 h2 hm h3 h4 h5
    have hstate := getOperationStatus_state_nonterminal s client st h1 h2 h3 h4 h5
    rw [getOperationStatus_calls_eq, hstate]
    simp [hm]

/-- Concrete fixture for the polling claims: a tracked, still-pending
statement without a manifest, against a client that keeps reporting Pending. -/
def pollPendingClient : RestClient :=
  { warehouse_id := "w"
    executeStatementR := fun _ =>
      { statement_id := "stmt-p", status := { state := .Pending } }
    getStatementR := fun _ => { status := { state := .Pending } }
    getStatementResultChunkNR := fun _ _ => none }

def pollPendingState : DriverState :=
  { currentStatement := some { statement_id := "stmt-p", status := { state := .Pending } } }

/-- Closed witness for C3: with a tracked manifest-less statement, one
get-statement call is issued. -/
theorem c3_getOperationStatus_polling_witness :
    (RestDriver.getOperationStatus pollPendingState pollPendingClient).calls =
      [RemoteCall.getStatementCall "stmt-p"] :=
  (c3_getOperationStatus_polling pollPendingState pollPendingClient).2.1
    { statement_id := "stmt-p", status := { state := .Pending } } rfl rfl

theorem foldlM_appendRowToCols_nil :
    ∀ (rows : List (List String)) (cols : List (List String)),
      rows.foldlM appendRowToCols [] = .ok cols → cols = [] := by
  intro rows
  induction rows with
  | nil =>
    intro cols h
    exact (Except.ok.inj h).symm
  | cons r rs ih =>
    intro cols h
    cases r with
    | nil =>
      simp only [List.foldlM_cons, appendRowToCols, Bind.bind, Except.bind] at h
      exact ih cols h
    | cons x xs =>
      simp only [List.foldlM_cons, appendRowToCols, Bind.bind, Except.bind] at h
      exact absurd h (by simp)

theorem restJsonResultToThriftColumnar_empty_schema (result : ResultData) (rs : TRowSet) :
    restJsonResultToThriftColumnar { column_count := 0, columns := [] } result = .ok rs →
    rs.columns = [] ∧ rs.columnCount = 0 := by
  intro h
  cases hda : result.data_array with
  | none =>
    simp only [restJsonResultToThriftColumnar, List.map_nil, hda, Except.map] at h
    injection h with h
    cases h
    constructor <;> rfl
  | some rows =>
    simp only [restJsonResultToThriftColumnar, List.map_nil, hda] at h
    cases hf : rows.foldlM appendRowToCols ([] : List (List String)) with
    | error e =>
      rw [hf] at h
      simp [Except.map] at h
    | ok cols =>
      have hcols := foldlM_appendRowToCols_nil rows cols hf
      rw [hf, hcols] at h
      simp only [Except.map] at h
      injection h with h
      cases h
      constructor <;> rfl

theorem fetchResults_resp_eq (s : DriverState) (client : RestClient) :
    (RestDriver.fetchResults s client).resp =
      match s.currentStatement with
      | none =>
        .ok { status := { statusCode := .ERROR_STATUS, errorMessage := some "Invalid handle" } }
      | some st =>
        match (resolvedChunk s client st).1 with
        | none =>
          .ok { status := { statusCode := .ERROR_STATUS, errorMessage := some "No more data" } }
        | some chunk =>
          match restJsonResultToThriftColumnar
              ((st.manifest.map (fun m => m.schema)).getD { column_count := 0, columns := [] })
              chunk with
          | .error e => .error e
          | .ok rowset =>
            .ok { status := { statusCode := .SUCCESS_STATUS }
                  hasMoreRows := some chunk.next_chunk_index.isSome
                  results := some rowset } := by
  cases h1 : s.currentStatement with
  | none => simp [RestDriver.fetchResults, h1]
  | some st =>
    cases hrc : (resolvedChunk s client st).1 with
    | none => simp [RestDriver.fetchResults, h1, hrc]
    | some chunk =>
      cases hm : st.manifest with
      | none =>
        cases hcv : restJsonResultToThriftColumnar { column_count := 0, columns := [] } chunk with
        | error e => simp [RestDriver.fetchResults, h1, hrc, hm, hcv]
        | ok rowset => simp [RestDriver.fetchResults, h1, hrc, hm, hcv]
      | some m =>
        cases hcv : restJsonResultToThriftColumnar m.schema chunk with
        | error e => simp [RestDriver.fetchResults, h1, hrc, hm, hcv]
        | ok rowset => simp [RestDriver.fetchResults, h1, hrc, hm, hcv]


theorem restJsonResultToThriftColumnar_some (schema : ResultSchema)
    (rows : List (List String)) (cix nix : Option Nat)
    (h : ∀ r ∈ rows, r.length ≤ schema.columns.length) :
    restJsonResultToThriftColumnar schema
        { data_array := some rows, chunk_index := cix, next_chunk_index := nix } =
      .ok { startRowOffset := 0
            rows := []
            columns := (rows.foldl zipAppendSpec
                (schema.columns.map (fun _ => []))).map (fun vs => { stringVal := vs })
            columnCount := (rows.foldl zipAppendSpec
                (schema.columns.map (fun _ => []))).length } := by
  have hfold := foldlM_appendRowToCols_eq_ok rows
    (schema.columns.map (fun _ => ([] : List String)))
    (fun r hr => by simpa using h r hr)
  show Except.map _ (rows.foldlM appendRowToCols _) = _
  rw [hfold]
  rfl

/-- C4: for every schema with n columns and every chunk whose rows each have n
cells, the row-major-to-columnar conversion returns a row set with exactly n
string-valued columns where column j is the sequence of j-th cells of the
rows in row order; when the tracked statement has no manifest, fetchResults
converts using a schema of zero columns. -/
theorem c4_row_major_to_columnar :
    (∀ (schema : ResultSchema) (rows : List (List String)) (cix nix : Option Nat),
      (∀ r ∈ rows, r.length = schema.columns.length) →
      ∃ rs, restJsonResultToThriftColumnar schema
          { data_array := some rows, chunk_index := cix, next_chunk_index := nix } = .ok rs ∧
        rs.columnCount = schema.columns.length ∧
        rs.columns.length = schema.columns.length ∧
        ∀ j, j < schema.columns.length →
          (rs.columns.getD j { stringVal := [] }).stringVal =
            rows.map (fun r => r.getD j "")) ∧
    (∀ (s : DriverState) (client : RestClient) (st : ExecuteStatementResponse),
      s.currentStatement = some st → st.manifest = none →
      ∀ resp rowset, (RestDriver.fetchResults s client).resp = .ok resp →
        resp.results = some rowset →
        rowset.columnCount = 0 ∧ rowset.columns = []) := by
  constructor
  · intro schema rows cix nix hlen
    have hc0len : (schema.columns.map (fun _ => ([] : List String))).length =
        schema.columns.length := by simp
    refine ⟨_, restJsonResultToThriftColumnar_some schema rows cix nix
      (fun r hr => (hlen r hr).le), ?_, ?_, ?_⟩
    · show (rows.foldl zipAppendSpec _).length = schema.columns.length
      rw [foldl_zipAppendSpec_length, hc0len]
    · show (List.map _ (rows.foldl zipAppendSpec _)).length = schema.columns.length
      rw [List.length_map, foldl_zipAppendSpec_length, hc0len]
    · intro j hj
      have hjf : j < (rows.foldl zipAppendSpec
          (schema.columns.map (fun _ => ([] : List String)))).length := by
        rw [foldl_zipAppendSpec_length, hc0len]; exact hj
      show ((List.map (fun vs => ({ stringVal := vs } : TColumn))
          (rows.foldl zipAppendSpec _)).getD j { stringVal := [] }).stringVal = _
      rw [getD_map_of_lt (fun vs => ({ stringVal := vs } : TColumn)) _ j hjf []]
      show (rows.foldl zipAppendSpec
          (schema.columns.map (fun _ => ([] : List String)))).getD j [] = _
      rw [foldl_zipAppendSpec_getD rows _ j (by rw [hc0len]; exact hj)
        (fun r hr => by rw [hc0len]; exact hlen r hr)]
      rw [getD_map_const_nil]
      simp
  · intro s client st h1 h2 resp rowset hok hres
    have hr := fetchResults_resp_eq s client
    rw [hok] at hr
    simp only [h1] at hr
    cases hrc : (resolvedChunk s client st).1 with
    | none =>
      simp only [hrc] at hr
      injection hr with hr
      rw [hr] at hres
      simp at hres
    | some chunk =>
      simp only [hrc, h2, Option.map_none', Option.getD_none] at hr
      cases hcv : restJsonResultToThriftColumnar { column_count := 0, columns := [] } chunk with
      | error e =>
        rw [hcv] at hr
        exact absurd hr (by simp)
      | ok rowset' =>
        rw [hcv] at hr
        injection hr with hr
        rw [hr] at hres
        simp only [] at hres
        injection hres with hres
        rw [← hres]
        have hE := restJsonResultToThriftColumnar_empty_schema chunk rowset' hcv
        exact ⟨hE.2, hE.1⟩

/-- Closed witness for C4: a two-column schema with two rows converts to two
columns holding the cells in row order. -/
theorem c4_row_major_to_columnar_witness :
    ∃ rs, restJsonResultToThriftColumnar
        { column_count := 2
          columns := [{ name := "a", position := 0, type_name := .Int },
                      { name := "b", position := 1, type_name := .String }] }
        { data_array := some [["1", "x"], ["2", "y"]],
          chunk_index := none, next_chunk_index := none } = .ok rs ∧
      rs.columnCount = 2 ∧
      rs.columns.length = 2 ∧
      ∀ j, j < 2 →
        (rs.columns.getD j { stringVal := [] }).stringVal =
          [["1", "x"], ["2", "y"]].map (fun r => r.getD j "") :=
  c4_row_major_to_columnar.1
    { column_count := 2
      columns := [{ name := "a", position := 0, type_name := .Int },
                  { name := "b", position := 1, type_name := .String }] }
    [["1", "x"], ["2", "y"]] none none (by decide)

/-- C7: for every column of the tracked statement's manifest at zero-based
position p, getResultSetMetadata reports an RPC column descriptor whose
position field equals p+1. -/
theorem c7_metadata_position_one_based (s : DriverState) (st : ExecuteStatementResponse)
    (m : ResultManifest) (h1 : s.currentStatement = some st) (h2 : st.manifest = some m) :
    ∃ resp sch, (RestDriver.getResultSetMetadata s).resp = .ok resp ∧
      resp.schema = some sch ∧
      sch.columns.length = m.schema.columns.length ∧
      ∀ j, j < m.schema.columns.length →
        (sch.columns.getD j
            { columnName := "", position := 0, typeDesc := { types := [] } }).position =
          (m.schema.columns.getD j
            { name := "", position := 0, type_name := .other "" }).position + 1 := by
  have hresp : (RestDriver.getResultSetMetadata s).resp = .ok
      { status := { statusCode := .SUCCESS_STATUS }
        resultFormat := some .COLUMN_BASED_SET
        schema := some { columns := m.schema.columns.map (fun column =>
          { columnName := column.name
            position := column.position + 1
            typeDesc := { types := [{ primitiveEntry :=
              { type := restTypeNameToThriftTypeId column.type_name } }] } }) } } := by
    simp [RestDriver.getResultSetMetadata, h1, h2]
  refine ⟨_, _, hresp, rfl, by simp, ?_⟩
  intro j hj
  rw [getD_map_of_lt _ m.schema.columns j hj
    { name := "", position := 0, type_name := .other "" }]

/-- Concrete fixture for the metadata claim: a tracked statement whose
manifest has two columns at positions 0 and 1. -/
def metaState : DriverState :=
  { currentStatement := some
      { statement_id := "stmt-m"
        status := { state := .Succeeded }
        manifest := some { schema :=
          { column_count := 2
            columns := [{ name := "a", position := 0, type_name := .Int },
                        { name := "b", position := 1, type_name := .String }] } } } }

/-- Closed witness for C7 on the two-column fixture. -/
theorem c7_metadata_position_one_based_witness :
    ∃ resp sch, (RestDriver.getResultSetMetadata metaState).resp = .ok resp ∧
      resp.schema = some sch ∧
      sch.columns.length =
        ([({ name := "a", position := 0, type_name := .Int } : ColumnInfo),
          { name := "b", position := 1, type_name := .String }]).length ∧
      ∀ j, j < ([({ name := "a", position := 0, type_name := .Int } : ColumnInfo),
          { name := "b", position := 1, type_name := .String }]).length →
        (sch.columns.getD j
            { columnName := "", position := 0, typeDesc := { types := [] } }).position =
          (([({ name := "a", position := 0, type_name := .Int } : ColumnInfo),
            { name := "b", position := 1, type_name := .String }]).getD j
            { name := "", position := 0, type_name := .other "" }).position + 1 :=
  c7_metadata_position_one_based metaState _ _ rfl rfl

/-- C8: fetchResults returns an RPC error-status response, not a thrown
exception, in exactly its two locally-detectable failure cases: an Invalid
handle error status whenever no statement is tracked, and a No more data
error status (never an empty success) whenever no result chunk is available. -/
theorem c8_fetchResults_error_statuses (s : DriverState) (client : RestClient) :
    (s.currentStatement = none ↔
      (RestDriver.fetchResults s client).resp =
        .ok { status := { statusCode := .ERROR_STATUS, errorMessage := some "Invalid handle" } }) ∧
    ((∃ st, s.currentStatement = some st ∧ (resolvedChunk s client st).1 = none) ↔
      (RestDriver.fetchResults s client).resp =
        .ok { status := { statusCode := .ERROR_STATUS, errorMessage := some "No more data" } }) ∧
    (∀ resp, (RestDriver.fetchResults s client).resp = .ok resp →
      resp.status.statusCode = .ERROR_STATUS →
      resp = { status := { statusCode := .ERROR_STATUS, errorMessage := some "Invalid handle" } } ∨
      resp = { status := { statusCode := .ERROR_STATUS, errorMessage := some "No more data" } }) := by
  have hr := fetchResults_resp_eq s client
  cases h1 : s.currentStatement with
  | none =>
    simp only [h1] at hr
    refine ⟨iff_of_true rfl hr, ?_, ?_⟩
    · refine iff_of_false ?_ ?_
      · rintro ⟨st, hst, _⟩
        exact Option.noConfusion hst
      · intro heq
        rw [hr] at heq
        exact absurd heq (by decide)
    · intro resp hok hcode
      rw [hr] at hok
      injection hok with hok
      exact Or.inl hok.symm
  | some st =>
    simp only [h1] at hr
    cases hrc : (resolvedChunk s client st).1 with
    | none =>
      simp only [hrc] at hr
      refine ⟨?_, iff_of_true ⟨st, rfl, hrc⟩ hr, ?_⟩
      · refine iff_of_false (by simp) ?_
        intro heq
        rw [hr] at heq
        exact absurd heq (by decide)
      · intro resp hok hcode
        rw [hr] at hok
        injection hok with hok
        exact Or.inr hok.symm
    | some chunk =>
      cases hcv : restJsonResultToThriftColumnar
          ((st.manifest.map (fun m => m.schema)).getD { column_count := 0, columns := [] })
          chunk with
      | error e =>
        simp only [hrc, hcv] at hr
        refine ⟨?_, ?_, ?_⟩
        · refine iff_of_false (by simp) ?_
          intro heq
          rw [hr] at heq
          exact Except.noConfusion heq
        · refine iff_of_false ?_ ?_
          · rintro ⟨st', hst, hres⟩
            rw [Option.some_inj] at hst
            rw [← hst] at hres
            rw [hrc] at hres
            exact Option.noConfusion hres
          · intro heq
            rw [hr] at heq
            exact Except.noConfusion heq
        · intro resp hok hcode
          rw [hr] at hok
          exact Except.noConfusion hok
      | ok rowset =>
        simp only [hrc, hcv] at hr
        refine ⟨?_, ?_, ?_⟩
        · refine iff_of_false (by simp) ?_
          intro heq
          rw [hr] at heq
          injection heq with heq
          injection heq with heq
          injection heq with heq
          exact TStatusCode.noConfusion heq
        · refine iff_of_false ?_ ?_
          · rintro ⟨st', hst, hres⟩
            rw [Option.some_inj] at hst
            rw [← hst] at hres
            rw [hrc] at hres
            exact Option.noConfusion hres
          · intro heq
            rw [hr] at heq
            injection heq with heq
            injection heq with heq
            injection heq with heq
            exact TStatusCode.noConfusion heq
        · intro resp hok hcode
          rw [hr] at hok
          injection hok with hok
          rw [← hok] at hcode
          exact TStatusCode.noConfusion hcode

/-- Closed witness for C8: with no statement tracked, fetchResults returns the
Invalid handle error status. -/
theorem c8_fetchResults_error_statuses_witness :
    (RestDriver.fetchResults {} pollPendingClient).resp =
      .ok { status := { statusCode := .ERROR_STATUS, errorMessage := some "Invalid handle" } } :=
  (c8_fetchResults_error_statuses {} pollPendingClient).1.mp rfl

/-- C10: the row-major-to-columnar conversion is total only under the
precondition that every row is at most as long as the schema's column list:
under that precondition it returns a row set, while a row with more cells
than the schema has columns makes it (and fetchResults on such remote data)
throw the JS TypeError of the missing accumulator access. -/
theorem c10_conversion_row_bounds :
    (∀ (schema : ResultSchema) (rows : List (List String)) (cix nix : Option Nat),
      (∀ r ∈ rows, r.length ≤ schema.columns.length) →
      ∃ rs, restJsonResultToThriftColumnar schema
          { data_array := some rows, chunk_index := cix, next_chunk_index := nix } = .ok rs) ∧
    restJsonResultToThriftColumnar { column_count := 0, columns := [] }
        { data_array := some [["x"]] } =
      .error "TypeError: Cannot read properties of undefined" ∧
    (RestDriver.fetchResults
        { currentStatement := some
            { statement_id := "stmt-1"
              status := { state := .Succeeded }
              manifest := some { schema := { column_count := 0, columns := [] } }
              result := some { data_array := some [["x"]] } } }
        pollPendingClient).resp =
      .error "TypeError: Cannot read properties of undefined" := by
  refine ⟨?_, rfl, rfl⟩
  intro schema rows cix nix h
  exact ⟨_, restJsonResultToThriftColumnar_some schema rows cix nix h⟩

/-- Closed witness for C10: a one-column schema accepts a one-cell row. -/
theorem c10_conversion_row_bounds_witness :
    ∃ rs, restJsonResultToThriftColumnar
        { column_count := 1, columns := [{ name := "c", position := 0, type_name := .String }] }
        { data_array := some [["a"]], chunk_index := none, next_chunk_index := none } =
      .ok rs :=
  c10_conversion_row_bounds.1
    { column_count := 1, columns := [{ name := "c", position := 0, type_name := .String }] }
    [["a"]] none none (by decide)

/-- Concrete client for the stale-chunk scenario of C1: statement text "A"
executes to statement `stmt-A` whose first chunk points at next index 7;
anything else executes to statement `stmt-B` with an attached single-chunk
result; chunk fetches return a recognizable chunk. -/
def c1Client : RestClient :=
  { warehouse_id := "w"
    executeStatementR := fun args =>
      if args.statement = "A" then
        { statement_id := "stmt-A"
          status := { state := .Succeeded }
          manifest := some { schema :=
            { column_count := 1
              columns := [{ name := "c", position := 0, type_name := .String }] } }
          result := some
            { data_array := some [["a0"]]
              chunk_index := some 0
              next_chunk_index := some 7 } }
      else
        { statement_id := "stmt-B"
          status := { state := .Succeeded }
          manifest := some { schema :=
            { column_count := 1
              columns := [{ name := "c", position := 0, type_name := .String }] } }
          result := some
            { data_array := some [["b0"]]
              chunk_index := some 0
              next_chunk_index := none } }
    getStatementR := fun _ => { status := { state := .Succeeded } }
    getStatementResultChunkNR := fun _ _ =>
      some { data_array := some [["stale"]], chunk_index := some 7, next_chunk_index := none } }

def c1StateAfterExecA : DriverState :=
  (RestDriver.executeStatement {} c1Client { statement := "A" }).state

def c1StateAfterFetchA : DriverState :=
  (RestDriver.fetchResults c1StateAfterExecA c1Client).state

def c1StateAfterExecB : DriverState :=
  (RestDriver.executeStatement c1StateAfterFetchA c1Client { statement := "B" }).state

def c1SecondFetch : StepResult TFetchResultsResp :=
  RestDriver.fetchResults c1StateAfterExecB c1Client

/-- C1 (refuted as stated; code bug): executing a new statement does not
discard the materialized result-chunk pointer of the previous statement —
after running statement A, fetching once, and running statement B, the old
chunk pointer of A is still in adapter state, and the first fetchResults for
B issues a remote chunk call with B's statement id and A's stale next index
(7) and returns that remote chunk's data, instead of consuming B's attached
result pointer (which holds the row b0) without a remote call. -/
theorem c1_stale_chunk_not_discarded :
    c1StateAfterExecB.currentStatement =
      some { statement_id := "stmt-B"
             status := { state := .Succeeded }
             manifest := some { schema :=
               { column_count := 1
                 columns := [{ name := "c", position := 0, type_name := .String }] } }
             result := some
               { data_array := some [["b0"]]
                 chunk_index := some 0
                 next_chunk_index := none } } ∧
    c1StateAfterExecB.currentResultChunk =
      some { data_array := some [["a0"]], chunk_index := some 0, next_chunk_index := some 7 } ∧
    c1SecondFetch.calls = [RemoteCall.chunkCall "stmt-B" (some 7)] ∧
    c1SecondFetch.resp = .ok
      { status := { statusCode := .SUCCESS_STATUS }
        hasMoreRows := some false
        results := some
          { startRowOffset := 0
            rows := []
            columns := [{ stringVal := ["stale"] }]
            columnCount := 1 } } :=
  ⟨rfl, rfl, rfl, rfl⟩
